import Mathlib

/-!
# Verification of the pulsar PulseAudio-protocol core

A shallow embedding of the `pulsar` repository (crates `pa-proto` and the
server crate): the packet frame codec (`pa-proto/src/packet.rs`), the
tagstruct value codec (`pa-proto/src/types/tagstruct.rs`), the domain value
types (`sample_spec.rs`, `channel_map.rs`, `cvolume.rs`, `proplist.rs`,
`format_info.rs`), the command parsers (`pa-proto/src/command/*.rs`), the
authentication cookie (`pa-proto/src/cookie.rs`) and the per-client
dispatcher (`src/server.rs`).

Conventions of the embedding:

* Bytes are `Nat` (each `< 256` by construction or by an explicit validity
  predicate); multi-byte integers are read and written big-endian exactly as
  the `byteorder::NetworkEndian` calls in the source.
* Rust `Result`/`Option` become `Option` or dedicated result inductives.
* A Rust `panic!`/`unimplemented!()` is modelled by an explicit `panicked`
  constructor of the result type, so that "the code crashes here" is a
  provable, executable fact.
* The recursive tagstruct reader is driven by an explicit fuel parameter;
  every recursive call of the Rust reader consumes at least one input byte
  first, so fuel `input.length + 1` can never be exhausted.  All top-level
  entry points use exactly that fuel.
-/

namespace Pulsar

/-! ## Byte-level primitives (byteorder::NetworkEndian reads and writes) -/
/-- Big-endian 4-byte encoding of a 32-bit unsigned integer
(`WriteBytesExt::write_u32::<NetworkEndian>`). -/
def u32be (n : Nat) : List Nat :=
  [n / 16777216 % 256, n / 65536 % 256, n / 256 % 256, n % 256]

/-- Big-endian 8-byte encoding of a 64-bit unsigned integer
(`WriteBytesExt::write_u64::<NetworkEndian>`). -/
def u64be (n : Nat) : List Nat :=
  [n / 72057594037927936 % 256, n / 281474976710656 % 256,
   n / 1099511627776 % 256, n / 4294967296 % 256,
   n / 16777216 % 256, n / 65536 % 256, n / 256 % 256, n % 256]

/-- Big-endian 4-byte read (`ReadBytesExt::read_u32::<NetworkEndian>`);
`none` models the `UnexpectedEof` I/O error. -/
def readU32 : List Nat → Option (Nat × List Nat)
  | a :: b :: c :: d :: rest => some (((a * 256 + b) * 256 + c) * 256 + d, rest)
  | _ => none

/-- Big-endian 8-byte read (`ReadBytesExt::read_u64::<NetworkEndian>`). -/
def readU64 : List Nat → Option (Nat × List Nat)
  | a :: b :: c :: d :: e :: f :: g :: h :: rest =>
    some ((((((((a * 256 + b) * 256 + c) * 256 + d) * 256 + e) * 256 + f)
      * 256 + g) * 256 + h), rest)
  | _ => none

/-- Two's-complement unsigned view of a signed 64-bit integer
(how `write_i64::<NetworkEndian>` lays out its bytes). -/
def toTwos64 (i : Int) : Nat := ((i + 18446744073709551616) % 18446744073709551616).toNat

/-- Signed interpretation of a 64-bit big-endian word
(`read_i64::<NetworkEndian>`). -/
def toSigned64 (n : Nat) : Int :=
  if n < 9223372036854775808 then (n : Int) else (n : Int) - 18446744073709551616

/-- Signed interpretation of a 32-bit big-endian word (the packet
descriptor's `channel: i32` field under bincode's big-endian config). -/
def toSigned32 (n : Nat) : Int :=
  if n < 2147483648 then (n : Int) else (n : Int) - 4294967296

/-- Two's-complement unsigned view of a signed 32-bit integer. -/
def toTwos32 (i : Int) : Nat := ((i + 4294967296) % 4294967296).toNat

/-- Take exactly `n` bytes from the stream (`TagStructReader::read_n`);
`none` models the `UnexpectedEof` error. -/
def readN (n : Nat) (l : List Nat) : Option (List Nat × List Nat) :=
  if n ≤ l.length then some (l.take n, l.drop n) else none

/-- Read until (and including) the first nul byte
(`TagStructReader::read_until(0x00)`), returning the bytes before the
terminator; `none` models "delimiter not found". -/
def splitAtNul : List Nat → Option (List Nat × List Nat)
  | [] => none
  | b :: rest =>
    if b = 0 then some ([], rest)
    else match splitAtNul rest with
      | some (s, r) => some (b :: s, r)
      | none => none

/-! ## Sample specifications (`pa-proto/src/types/sample_spec.rs`) -/
/-- `SampleFormat`: encoding of individual samples (13 variants, discriminants
0 through 12 in declaration order, derived `FromPrimitive`). -/
inductive SampleFormat
  | u8 | alaw | ulaw | s16le | s16be | float32le | float32be
  | s32le | s32be | s24le | s24be | s24in32le | s24in32be
  deriving DecidableEq, Repr

/-- The `#[repr(u8)]` discriminant of a `SampleFormat` (`as u8`). -/
def SampleFormat.toU8 : SampleFormat → Nat
  | .u8 => 0 | .alaw => 1 | .ulaw => 2 | .s16le => 3 | .s16be => 4
  | .float32le => 5 | .float32be => 6 | .s32le => 7 | .s32be => 8
  | .s24le => 9 | .s24be => 10 | .s24in32le => 11 | .s24in32be => 12

/-- `SampleFormat::from_u8` (derived `FromPrimitive`): `none` outside 0..=12. -/
def SampleFormat.fromU8 : Nat → Option SampleFormat
  | 0 => some .u8 | 1 => some .alaw | 2 => some .ulaw | 3 => some .s16le
  | 4 => some .s16be | 5 => some .float32le | 6 => some .float32be
  | 7 => some .s32le | 8 => some .s32be | 9 => some .s24le
  | 10 => some .s24be | 11 => some .s24in32le | 12 => some .s24in32be
  | _ => none

/-- `SampleSpec`: format, channel count and sample rate. -/
structure SampleSpec where
  format : SampleFormat
  channels : Nat
  sampleRate : Nat
  deriving DecidableEq, Repr

/-- `CHANNELS_MAX` -/
def CHANNELS_MAX : Nat := 32

/-- `RATE_MAX = 48000 * 8` -/
def RATE_MAX : Nat := 48000 * 8

/-- `SampleSpec::new_checked`: rejects `channels == 0 || channels > CHANNELS_MAX`
and `sample_rate == 0 || sample_rate > RATE_MAX * 101 / 100`. -/
def SampleSpec.newChecked (format : SampleFormat) (channels : Nat) (sampleRate : Nat) :
    Option SampleSpec :=
  if channels = 0 ∨ channels > CHANNELS_MAX then none
  else if sampleRate = 0 ∨ sampleRate > RATE_MAX * 101 / 100 then none
  else some ⟨format, channels, sampleRate⟩

/-- `SampleSpec::protocol_downgrade`: before protocol 15 the 24-bit formats
are rewritten to 32-bit float of the same endianness; everything else (and
every spec at protocol ≥ 15) passes through unchanged. -/
def SampleSpec.protocolDowngrade (s : SampleSpec) (protocolVersion : Nat) : SampleSpec :=
  if protocolVersion < 15 then
    match s.format with
    | .s24le => { s with format := .float32le }
    | .s24in32le => { s with format := .float32le }
    | .s24be => { s with format := .float32be }
    | .s24in32be => { s with format := .float32be }
    | _ => s
  else s

/-! ## Property lists (`pa-proto/src/types/proplist.rs`)

`PropList` wraps a `BTreeMap<UnicodeCString, Box<[u8]>>`.  We model the map
as its sorted association list: keys are the strings' byte sequences
(without the nul terminator) ordered lexicographically, which agrees with
the derived `Ord` on `UnicodeCString` (the trailing nul byte of the stored
`String` never changes the comparison because 0 is smaller than every
non-nul byte). -/
/-- Strict lexicographic order on key byte strings (`Ord` of `UnicodeCString`). -/
def keyLtB : List Nat → List Nat → Bool
  | [], [] => false
  | [], _ :: _ => true
  | _ :: _, [] => false
  | a :: as_, b :: bs => if a < b then true else if b < a then false else keyLtB as_ bs

/-- A BTreeMap entry: key bytes and value bytes. -/
abbrev PropEntry := List Nat × List Nat

/-- The `BTreeMap` contents of a `PropList`, as a key-sorted association list. -/
abbrev PropList := List PropEntry

/-- `BTreeMap::insert` on the sorted association list: replaces an existing
key's value, otherwise inserts at the ordered position. -/
def mapInsert (k : List Nat) (v : List Nat) : PropList → PropList
  | [] => [(k, v)]
  | (k', v') :: t =>
    if keyLtB k k' then (k, v) :: (k', v') :: t
    else if k = k' then (k, v) :: t
    else (k', v') :: mapInsert k v t

/-- `PropList::extend` (via `BTreeMap::extend`): insert every entry of the
second list into the first, overwriting duplicates. -/
def propsExtend (base : PropList) (extra : PropList) : PropList :=
  extra.foldl (fun m e => mapInsert e.1 e.2 m) base

/-- Keys strictly ascending (the invariant of a `BTreeMap` traversal). -/
def keysAscending : PropList → Bool
  | [] => true
  | [_] => true
  | a :: b :: t => keyLtB a.1 b.1 && keysAscending (b :: t)

/-! ## Format info (`pa-proto/src/types/format_info.rs`) -/
/-- `FormatEncoding` has 7 variants with discriminants 0..=6; we carry the
discriminant with its range invariant enforced by `fromRaw`. -/
structure FormatInfo where
  encoding : Nat
  props : PropList
  deriving DecidableEq, Repr

/-- `FormatInfo::from_raw`: `FormatEncoding::from_u8` fails outside 0..=6. -/
def FormatInfo.fromRaw (encoding : Nat) (props : PropList) : Option FormatInfo :=
  if encoding < 7 then some ⟨encoding, props⟩ else none

/-! ## Volumes and channel maps

`Volume` is a raw `u32` clamped to `VOLUME_MAX = u32::MAX / 2` on decode
(`Volume::from_u32_clamped`); `CVolume` and `ChannelMap` are length-bounded
vectors, modelled as lists with their invariants carried by the validity
predicate.  `ChannelPosition` has 51 variants with discriminants 0..=50
(derived `FromPrimitive`); we carry the discriminant. -/
def VOLUME_MAX : Nat := 2147483647

/-- `Volume::from_u32_clamped` -/
def volumeFromU32Clamped (raw : Nat) : Nat := min raw VOLUME_MAX

/-- `ChannelPosition::from_u8`: valid discriminants are 0..=50. -/
def channelPositionFromU8 (raw : Nat) : Option Nat :=
  if raw ≤ 50 then some raw else none

/-! ## Tagstruct values (`pa-proto/src/types/tagstruct.rs`)

`Value<'a>` from the source.  The `Timeval` variant is omitted because its
payload type `enum Timeval {}` is uninhabited, so the Rust variant can never
be constructed; the reader still panics on the `T` tag byte (see
`readValue`).  Strings are the `CStr` bytes without the nul terminator. -/
inductive Value
  | string (s : List Nat)
  | nullString
  | u32 (n : Nat)
  | u8 (n : Nat)
  | u64 (n : Nat)
  | s64 (i : Int)
  | sampleSpec (s : SampleSpec)
  | arbitrary (b : List Nat)
  | boolean (b : Bool)
  | usec (n : Nat)
  | channelMap (m : List Nat)
  | cvolume (vs : List Nat)
  | propList (pl : PropList)
  | volume (v : Nat)
  | formatInfo (fi : FormatInfo)
  deriving DecidableEq, Repr

/-- Tag bytes (the `Tag` enum): `t N L B R r a x 1 0 T U m v P V f`. -/
def tagSTRING : Nat := 116

def tagSTRING_NULL : Nat := 78

def tagU32 : Nat := 76

def tagU8 : Nat := 66

def tagU64 : Nat := 82

def tagS64 : Nat := 114

def tagSAMPLE_SPEC : Nat := 97

def tagARBITRARY : Nat := 120

def tagBOOLEAN_TRUE : Nat := 49

def tagBOOLEAN_FALSE : Nat := 48

def tagTIMEVAL : Nat := 84

def tagUSEC : Nat := 85

def tagCHANNEL_MAP : Nat := 109

def tagCVOLUME : Nat := 118

def tagPROPLIST : Nat := 80

def tagVOLUME : Nat := 86

def tagFORMAT_INFO : Nat := 102

/-- Wire form of one proplist entry: key as STRING, value length as U32,
value as ARBITRARY of that length (`impl ToTagStruct for PropList`). -/
def encodePropEntry (e : PropEntry) : List Nat :=
  (tagSTRING :: e.1 ++ [0]) ++ (tagU32 :: u32be e.2.length)
    ++ (tagARBITRARY :: u32be e.2.length ++ e.2)

/-- Wire form of a whole `PropList` value: tag `P`, the entries in map
(= key-sorted) order, then a NULL-STRING terminator. -/
def encodePropList (pl : PropList) : List Nat :=
  tagPROPLIST :: pl.flatMap encodePropEntry ++ [tagSTRING_NULL]

/-- The tagstruct wire encoding of each value variant, following the
`ToTagStruct` impls of `tagstruct.rs` (which every command writer uses via
`TagStructWriter::write`).  None of those impls consult the protocol
version. -/
def encodeValue : Value → List Nat
  | .string s => tagSTRING :: s ++ [0]
  | .nullString => [tagSTRING_NULL]
  | .u32 n => tagU32 :: u32be n
  | .u8 n => [tagU8, n]
  | .u64 n => tagU64 :: u64be n
  | .s64 i => tagS64 :: u64be (toTwos64 i)
  | .sampleSpec s => tagSAMPLE_SPEC :: s.format.toU8 :: s.channels :: u32be s.sampleRate
  | .arbitrary b => tagARBITRARY :: u32be b.length ++ b
  | .boolean true => [tagBOOLEAN_TRUE]
  | .boolean false => [tagBOOLEAN_FALSE]
  | .usec n => tagUSEC :: u64be n
  | .channelMap m => tagCHANNEL_MAP :: m.length :: m
  | .cvolume vs => tagCVOLUME :: vs.length :: vs.flatMap u32be
  | .propList pl => encodePropList pl
  | .volume v => tagVOLUME :: u32be v
  | .formatInfo fi => tagFORMAT_INFO :: tagU8 :: fi.encoding :: encodePropList fi.props

/-- `MAX_PROP_SIZE = 64 * 1024` -/
def MAX_PROP_SIZE : Nat := 65536

/-- Validity of a proplist entry on the wire: the reader demands a
nonempty, UTF-8, ASCII-only key (equivalently: all key bytes in 1..=127)
and a value of at most `MAX_PROP_SIZE` bytes. -/
def validPropEntry (e : PropEntry) : Bool :=
  decide (e.1 ≠ []) && e.1.all (fun b => 0 < b && b < 128)
    && e.2.all (· < 256) && decide (e.2.length ≤ MAX_PROP_SIZE)

/-- Validity of a `PropList` model value: entry validity plus the
`BTreeMap` representation invariant (keys strictly ascending). -/
def validPropList (pl : PropList) : Bool :=
  pl.all validPropEntry && keysAscending pl

/-- The invariants of each value variant as enforced by the constructors in
the source (`SampleSpec::new_checked`, `Volume::from_u32_clamped`,
`CStr`'s no-interior-nul guarantee, the fixed-capacity `ChannelMap` and
`CVolume`, `FormatEncoding::from_u8`) together with the machine-integer
ranges of the carried primitives. -/
def validValue : Value → Bool
  | .string s => s.all (fun b => 0 < b && b < 256)
  | .nullString => true
  | .u32 n => decide (n < 4294967296)
  | .u8 n => decide (n < 256)
  | .u64 n => decide (n < 18446744073709551616)
  | .s64 i => decide (-9223372036854775808 ≤ i) && decide (i < 9223372036854775808)
  | .sampleSpec s => decide (0 < s.channels) && decide (s.channels ≤ 32)
      && decide (0 < s.sampleRate) && decide (s.sampleRate ≤ 387840)
  | .arbitrary b => b.all (· < 256) && decide (b.length < 4294967296)
  | .boolean _ => true
  | .usec n => decide (n < 18446744073709551616)
  | .channelMap m => decide (m.length ≤ 32) && m.all (· ≤ 50)
  | .cvolume vs => decide (0 < vs.length) && decide (vs.length ≤ 32)
      && vs.all (· ≤ VOLUME_MAX)
  | .propList pl => validPropList pl
  | .volume v => decide (v ≤ VOLUME_MAX)
  | .formatInfo fi => decide (fi.encoding < 7) && validPropList fi.props

/-! ### The reader (`TagStructReader::read` and the proplist loop)

`ReadRes` mirrors the possible outcomes of `TagStructReader::read`:
`eof` is the clean end-of-input `Ok(None)`, `err` any `Err(_)`, `panicked`
the `unimplemented!()` on the `TIMEVAL` tag, and `ok v rest` is
`Ok(Some(v))` with the cursor advanced to `rest`. -/
inductive ReadRes
  | eof
  | err
  | panicked
  | ok (v : Value) (rest : List Nat)
  deriving DecidableEq, Repr

/-- The `SAMPLE_SPEC` branch of `TagStructReader::read` (format u8,
channels u8, rate u32, then `SampleFormat::from_u8` and
`SampleSpec::new_checked`); `none` is an error. -/
def readSampleSpecBody (input : List Nat) : Option (SampleSpec × List Nat) :=
  match input with
  | f :: ch :: rest =>
    match readU32 rest with
    | some (rate, rest') =>
      match SampleFormat.fromU8 f with
      | some format =>
        match SampleSpec.newChecked format ch rate with
        | some s => some (s, rest')
        | none => none
      | none => none
    | none => none
  | _ => none

/-- The position loop of the `CHANNEL_MAP` branch: read `n` position bytes,
each validated by `ChannelPosition::from_u8`. -/
def readPositions : Nat → List Nat → Option (List Nat × List Nat)
  | 0, input => some ([], input)
  | n + 1, input =>
    match input with
    | [] => none
    | raw :: rest =>
      match channelPositionFromU8 raw with
      | some pos =>
        match readPositions n rest with
        | some (ps, rest') => some (pos :: ps, rest')
        | none => none
      | none => none

/-- The volume loop of the `CVOLUME` branch: read `n` u32 volumes, each
clamped by `Volume::from_u32_clamped`. -/
def readVolumes : Nat → List Nat → Option (List Nat × List Nat)
  | 0, input => some ([], input)
  | n + 1, input =>
    match readU32 input with
    | some (raw, rest) =>
      match readVolumes n rest with
      | some (vs, rest') => some (volumeFromU32Clamped raw :: vs, rest')
      | none => none
    | none => none

mutual

/-- `TagStructReader::read`, with fuel (strictly decreasing on every
recursive call; the Rust recursion consumes at least one byte per level, so
fuel `input.length + 1` suffices — see `readOne`). -/
def readValue : Nat → List Nat → ReadRes
  | 0, _ => .err
  | _ + 1, [] => .eof
  | fuel + 1, t :: rest =>
    if t = tagSTRING then
      match splitAtNul rest with
      | some (s, rest') => .ok (.string s) rest'
      | none => .err
    else if t = tagSTRING_NULL then .ok .nullString rest
    else if t = tagU32 then
      match readU32 rest with
      | some (n, rest') => .ok (.u32 n) rest'
      | none => .err
    else if t = tagU8 then
      match rest with
      | b :: rest' => .ok (.u8 b) rest'
      | [] => .err
    else if t = tagU64 then
      match readU64 rest with
      | some (n, rest') => .ok (.u64 n) rest'
      | none => .err
    else if t = tagS64 then
      match readU64 rest with
      | some (n, rest') => .ok (.s64 (toSigned64 n)) rest'
      | none => .err
    else if t = tagSAMPLE_SPEC then
      match readSampleSpecBody rest with
      | some (s, rest') => .ok (.sampleSpec s) rest'
      | none => .err
    else if t = tagARBITRARY then
      match readU32 rest with
      | some (len, rest') =>
        match readN len rest' with
        | some (bytes, rest'') => .ok (.arbitrary bytes) rest''
        | none => .err
      | none => .err
    else if t = tagBOOLEAN_TRUE then .ok (.boolean true) rest
    else if t = tagBOOLEAN_FALSE then .ok (.boolean false) rest
    else if t = tagPROPLIST then readPropEntries fuel rest []
    else if t = tagCHANNEL_MAP then
      match rest with
      | [] => .err
      | channels :: rest' =>
        if channels > CHANNELS_MAX then .err
        else
          match readPositions channels rest' with
          | some (m, rest'') => .ok (.channelMap m) rest''
          | none => .err
    else if t = tagCVOLUME then
      match rest with
      | [] => .err
      | channels :: rest' =>
        if channels = 0 ∨ channels > CHANNELS_MAX then .err
        else
          match readVolumes channels rest' with
          | some (vs, rest'') => .ok (.cvolume vs) rest''
          | none => .err
    else if t = tagUSEC then
      match readU64 rest with
      | some (n, rest') => .ok (.usec n) rest'
      | none => .err
    else if t = tagVOLUME then
      match readU32 rest with
      | some (n, rest') => .ok (.volume (volumeFromU32Clamped n)) rest'
      | none => .err
    else if t = tagFORMAT_INFO then
      -- `read_u8` then `read_proplist`, both typed wrappers over `read`
      match readValue fuel rest with
      | .ok (.u8 encoding) rest' =>
        match readValue fuel rest' with
        | .ok (.propList props) rest'' =>
          match FormatInfo.fromRaw encoding props with
          | some fi => .ok (.formatInfo fi) rest''
          | none => .err
        | .panicked => .panicked
        | _ => .err
      | .panicked => .panicked
      | _ => .err
    else if t = tagTIMEVAL then .panicked   -- unimplemented!("tagstruct tag {:?}")
    else .err                               -- invalid tag byte

/-- The key/value loop of the `PROPLIST` branch of `TagStructReader::read`:
`read_string` (string-or-null via full `read`), key checks, `read_u32`
length, `MAX_PROP_SIZE` check, `read_sized_arbitrary`, `BTreeMap::insert`,
until a NULL-STRING ends the list. -/
def readPropEntries : Nat → List Nat → PropList → ReadRes
  | 0, _, _ => .err
  | fuel + 1, input, acc =>
    match readValue fuel input with
    | .ok .nullString rest => .ok (.propList acc) rest
    | .ok (.string key) rest =>
      if key = [] then .err
      else if ¬ key.all (fun b => b < 128) then .err  -- UTF-8 + ASCII check
      else
        match readValue fuel rest with
        | .ok (.u32 dataLen) rest' =>
          if dataLen > MAX_PROP_SIZE then .err
          else
            match readValue fuel rest' with
            | .ok (.arbitrary data) rest'' =>
              if data.length ≠ dataLen then .err
              else readPropEntries fuel rest'' (mapInsert key data acc)
            | .panicked => .panicked
            | _ => .err
        | .panicked => .panicked
        | _ => .err
    | .ok _ _ => .err
    | .panicked => .panicked
    | _ => .err

end

/-- `TagStructReader::read` at the front of `input`: fuel
`input.length + 1` can never be exhausted because every recursion level of
the reader first consumes at least one byte. -/
def readOne (input : List Nat) : ReadRes := readValue (input.length + 1) input

/-! ## Packet framing (`pa-proto/src/packet.rs`)

The 20-byte descriptor is read/written big-endian (bincode with
`.big_endian()`), field order `length, channel, offset_hi, offset_lo,
flags`; `channel` is a signed 32-bit integer. -/
structure Descriptor where
  length : Nat
  channel : Int
  offsetHi : Nat
  offsetLo : Nat
  flags : Nat
  deriving DecidableEq, Repr

/-- Serialized descriptor (bincode big-endian, field order as declared). -/
def descriptorBytes (d : Descriptor) : List Nat :=
  u32be d.length ++ u32be (toTwos32 d.channel) ++ u32be d.offsetHi
    ++ u32be d.offsetLo ++ u32be d.flags

/-- Big-endian 32-bit word at offset `i` of a byte list. -/
def wordAt (l : List Nat) (i : Nat) : Nat :=
  ((l.getD i 0 * 256 + l.getD (i + 1) 0) * 256 + l.getD (i + 2) 0) * 256 + l.getD (i + 3) 0

/-- Deserialize a descriptor from the first 20 bytes of the buffer (only
ever used when at least 20 bytes are available; parsing 20 raw bytes cannot
fail). -/
def parseDescriptor (l : List Nat) : Descriptor :=
  { length := wordAt l 0
    channel := toSigned32 (wordAt l 4)
    offsetHi := wordAt l 8
    offsetLo := wordAt l 12
    flags := wordAt l 16 }

structure Packet where
  desc : Descriptor
  payload : List Nat
  deriving DecidableEq, Repr

/-- `Packet::new_command`: a control packet (channel −1, zero offsets and
flags) carrying `payload` (precondition `payload.len() <= u32::MAX`). -/
def Packet.newCommand (payload : List Nat) : Packet :=
  { desc := ⟨payload.length, -1, 0, 0, 0⟩
    payload := payload }

/-- `<PacketCodec as Encoder>::encode`: descriptor then payload
(`assert_eq!(desc.length, payload.len())` holds for `new_command` packets). -/
def codecEncode (p : Packet) : List Nat := descriptorBytes p.desc ++ p.payload

/-- Encode a single command frame carrying `payload`. -/
def encodeFrame (payload : List Nat) : List Nat := codecEncode (Packet.newCommand payload)

/-- One call of `<PacketCodec as Decoder>::decode` on buffer `src` with
cached header `st` (`PacketCodec::desc`).  Returns the new cached header,
the new buffer contents, and the decoded packet if one was produced.

Mirrors the source exactly, including the `src.clear()` that empties the
whole buffer when a packet is yielded. -/
def codecDecode (st : Option Descriptor) (src : List Nat) :
    Option Descriptor × List Nat × Option Packet :=
  if src.length < 20 then (st, src, none)
  else
    let desc := st.getD (parseDescriptor src)
    if src.length < 20 + desc.length then (some desc, src, none)
    else (none, [], some ⟨desc, (src.drop 20).take desc.length⟩)

/-- Drive the decoder until it reports "need more data", as tokio's
`Framed` does after every socket read.  Fuel bounds the loop; with fuel
`src.length + 1` it cannot run out because a yield empties the buffer. -/
def codecDrain : Nat → Option Descriptor → List Nat →
    Option Descriptor × List Nat × List Packet
  | 0, st, src => (st, src, [])
  | fuel + 1, st, src =>
    match codecDecode st src with
    | (st', src', none) => (st', src', [])
    | (st', src', some p) =>
      let (st'', src'', ps) := codecDrain fuel st' src'
      (st'', src'', p :: ps)

/-- Feed one received chunk into the framed stream: append it to the buffer
and drain. -/
def codecFeed (st : Option Descriptor × List Nat) (chunk : List Nat) :
    (Option Descriptor × List Nat) × List Packet :=
  let buf := st.2 ++ chunk
  let (st', buf', ps) := codecDrain (buf.length + 1) st.1 buf
  ((st', buf'), ps)

/-- Decode a byte stream delivered as the given chunks, returning the
payloads of all packets produced. -/
def decodeFrames (chunks : List (List Nat)) : List (List Nat) :=
  (chunks.foldl (fun acc chunk =>
    let (st', ps) := codecFeed acc.1 chunk
    (st', acc.2 ++ ps)) ((none, []), [])).2.map Packet.payload

/-! ## Messages (`Message::from_packet`)

All three non-control arms of `Message::from_packet` are
`unimplemented!(...)`, i.e. they panic. -/
def FLAG_SHMRELEASE : Nat := 1073741824

def FLAG_SHMREVOKE : Nat := 3221225472

inductive Message
  | control (tagstruct : List Nat)
  deriving DecidableEq, Repr

/-- Outcome of a possibly-panicking computation. -/
inductive POr (α : Type) where
  | ok (a : α)
  | panicked
  deriving DecidableEq, Repr

/-- `Message::from_packet`. -/
def messageFromPacket (p : Packet) : POr Message :=
  if p.desc.channel = -1 then .ok (.control p.payload)
  else if p.desc.flags = FLAG_SHMRELEASE then .panicked  -- unimplemented!("shmrelease messages")
  else if p.desc.flags = FLAG_SHMREVOKE then .panicked   -- unimplemented!("shmrevoke messages")
  else .panicked                                         -- unimplemented!("memblock messages")

/-! ## Commands (`pa-proto/src/command/`) -/
/-- Result of a fallible, possibly-panicking parse that advances a cursor. -/
inductive PRes (α : Type) where
  | ok (a : α) (rest : List Nat)
  | err
  | panicked
  deriving DecidableEq

/-- The typed-read wrappers generated by the `read_typed!` macro (and
`read_string`): run `read`, then demand a particular value shape; a clean
EOF becomes an error via `expect`. -/
def expectTyped {α : Type} (f : Value → Option α) (input : List Nat) : PRes α :=
  match readOne input with
  | .ok v rest =>
    match f v with
    | some a => .ok a rest
    | none => .err
  | .eof => .err
  | .err => .err
  | .panicked => .panicked

def readU32T : List Nat → PRes Nat :=
  expectTyped fun v => match v with | .u32 n => some n | _ => none

def readU8T : List Nat → PRes Nat :=
  expectTyped fun v => match v with | .u8 n => some n | _ => none

def readBoolT : List Nat → PRes Bool :=
  expectTyped fun v => match v with | .boolean b => some b | _ => none

def readArbitraryT : List Nat → PRes (List Nat) :=
  expectTyped fun v => match v with | .arbitrary b => some b | _ => none

def readPropListT : List Nat → PRes PropList :=
  expectTyped fun v => match v with | .propList pl => some pl | _ => none

def readSampleSpecT : List Nat → PRes SampleSpec :=
  expectTyped fun v => match v with | .sampleSpec s => some s | _ => none

def readChannelMapT : List Nat → PRes (List Nat) :=
  expectTyped fun v => match v with | .channelMap m => some m | _ => none

def readCVolumeT : List Nat → PRes (List Nat) :=
  expectTyped fun v => match v with | .cvolume vs => some vs | _ => none

def readFormatInfoT : List Nat → PRes FormatInfo :=
  expectTyped fun v => match v with | .formatInfo fi => some fi | _ => none

/-- `TagStructReader::read_string`: string-or-null (`some s` / `none`). -/
def readStringOrNullT : List Nat → PRes (Option (List Nat)) :=
  expectTyped fun v =>
    match v with
    | .string s => some (some s)
    | .nullString => some none
    | _ => none

/-- Sequencing of cursor-advancing parses. -/
def pbind {α β : Type} : PRes α → (α → List Nat → PRes β) → PRes β
  | .ok a rest, f => f a rest
  | .err, _ => .err
  | .panicked, _ => .panicked

/-! ### Auth (`command/auth.rs`) -/
def VERSION_MASK : Nat := 65535

def FLAG_SHM_BIT : Nat := 31

def FLAG_MEMFD_BIT : Nat := 30

structure AuthCmd where
  version : Nat
  supportsShm : Bool
  supportsMemfd : Bool
  cookie : List Nat
  deriving DecidableEq, Repr

/-- `Auth::from_tag_struct`: one u32 packing flags-and-version, then an
arbitrary blob as cookie. -/
def authFromTagStruct (input : List Nat) : PRes AuthCmd :=
  pbind (readU32T input) fun flagsAndVersion i =>
  pbind (readArbitraryT i) fun cookie i =>
  .ok { version := flagsAndVersion % 65536
        supportsShm := flagsAndVersion.testBit FLAG_SHM_BIT
        supportsMemfd := flagsAndVersion.testBit FLAG_MEMFD_BIT
        cookie := cookie } i

/-! ### CreatePlaybackStream (`command/create_playback_stream.rs`) -/
def INVALID_INDEX : Nat := 4294967295

inductive SinkSpec
  | index (i : Nat)
  | name (s : List Nat)
  deriving DecidableEq, Repr

/-- The sink-selection match at the end of
`CreatePlaybackStream::from_tag_struct` (lines 154–162): both an explicit
index and a name is a protocol error (`none` here — the Rust returns
`Err(Error::string("cannot specify both sink index and name"))`). -/
def sinkSpecSelect (sinkIndex : Nat) (sinkName : Option (List Nat)) :
    Option (Option SinkSpec) :=
  if sinkIndex = INVALID_INDEX then
    match sinkName with
    | none => some none                      -- default sink
    | some n => some (some (.name n))
  else
    match sinkName with
    | none => some (some (.index sinkIndex))
    | some _ => none                         -- "cannot specify both sink index and name"

structure StreamFlags where
  startCorked : Bool := false
  noRemapChannels : Bool := false
  noRemixChannels : Bool := false
  fixFormat : Bool := false
  fixRate : Bool := false
  fixChannels : Bool := false
  dontMove : Bool := false
  variableRate : Bool := false
  adjustLatency : Bool := false
  earlyRequests : Bool := false
  dontInhibitAutoSuspend : Bool := false
  failOnSuspend : Bool := false
  relativeVolume : Bool := false
  passthrough : Bool := false
  deriving DecidableEq, Repr

structure CreatePlaybackStreamParams where
  streamProps : PropList
  sampleSpec : SampleSpec
  channelMap : List Nat
  streamFlags : StreamFlags
  sinkSpec : Option SinkSpec
  muted : Option Bool
  volume : Option (List Nat)
  syncid : Nat
  deriving DecidableEq, Repr

/-- The format-info loop of the `protocol_version >= 21` block. -/
def readFormatInfos : Nat → List Nat → PRes (List FormatInfo)
  | 0, input => .ok [] input
  | n + 1, input =>
    pbind (readFormatInfoT input) fun fi i =>
    pbind (readFormatInfos n i) fun fis i =>
    .ok (fi :: fis) i

/-- `CreatePlaybackStream::from_tag_struct`: reads the v13 field block, the
version-gated extensions, then resolves the sink spec and the muted/volume
preferences.  (The parsed format infos are read but not stored, as in the
source, where the local `formats` vector is dropped.) -/
def createPlaybackStreamFromTagStruct (protocolVersion : Nat) (input : List Nat) :
    PRes CreatePlaybackStreamParams :=
  pbind (readSampleSpecT input) fun sampleSpec i =>
  pbind (readChannelMapT i) fun channelMap i =>
  pbind (readU32T i) fun sinkIndex i =>
  pbind (readStringOrNullT i) fun sinkName i =>
  pbind (readU32T i) fun _maxlength i =>
  pbind (readBoolT i) fun startCorked i =>
  pbind (readU32T i) fun _tlength i =>
  pbind (readU32T i) fun _prebuf i =>
  pbind (readU32T i) fun _minreq i =>
  pbind (readU32T i) fun syncid i =>
  pbind (readCVolumeT i) fun cvolume i =>
  pbind (readBoolT i) fun noRemap i =>
  pbind (readBoolT i) fun noRemix i =>
  pbind (readBoolT i) fun fixFormat i =>
  pbind (readBoolT i) fun fixRate i =>
  pbind (readBoolT i) fun fixChannels i =>
  pbind (readBoolT i) fun dontMove i =>
  pbind (readBoolT i) fun variableRate i =>
  pbind (readBoolT i) fun muted i =>
  pbind (readBoolT i) fun adjustLatency i =>
  pbind (readPropListT i) fun streamProps i =>
  pbind (if 14 ≤ protocolVersion then
      pbind (readBoolT i) fun volumeSet i =>
      pbind (readBoolT i) fun earlyRequests i =>
      .ok (volumeSet, earlyRequests) i
    else .ok (true, false) i) fun v14 i =>
  pbind (if 15 ≤ protocolVersion then
      pbind (readBoolT i) fun mutedSet i =>
      pbind (readBoolT i) fun dontInhibit i =>
      pbind (readBoolT i) fun failOnSuspend i =>
      .ok (mutedSet, dontInhibit, failOnSuspend) i
    else .ok (false, false, false) i) fun v15 i =>
  pbind (if 17 ≤ protocolVersion then readBoolT i else .ok false i) fun relativeVolume i =>
  pbind (if 18 ≤ protocolVersion then readBoolT i else .ok false i) fun passthrough i =>
  pbind (if 21 ≤ protocolVersion then
      pbind (readU8T i) fun n i => readFormatInfos n i
    else .ok [] i) fun _formats i =>
  match sinkSpecSelect sinkIndex sinkName with
  | none => .err
  | some sinkSpec =>
    let mutedSet := if muted then true else v15.1
    let mutedPref : Option Bool := if mutedSet then some muted else none
    let volumePref : Option (List Nat) := if v14.1 then some cvolume else none
    .ok { streamProps := streamProps
          sampleSpec := sampleSpec
          channelMap := channelMap
          streamFlags :=
            { startCorked := startCorked, noRemapChannels := noRemap
              noRemixChannels := noRemix, fixFormat := fixFormat, fixRate := fixRate
              fixChannels := fixChannels, dontMove := dontMove
              variableRate := variableRate, adjustLatency := adjustLatency
              earlyRequests := v14.2, dontInhibitAutoSuspend := v15.2.1
              failOnSuspend := v15.2.2, relativeVolume := relativeVolume
              passthrough := passthrough }
          sinkSpec := sinkSpec
          muted := mutedPref
          volume := volumePref
          syncid := syncid } i

/-! ### The command envelope (`command/mod.rs`) -/
def PROTOCOL_MIN_VERSION : Nat := 13

def PROTOCOL_VERSION : Nat := 32

inductive CommandKind
  | auth (a : AuthCmd)
  | setClientName (props : PropList)
  | createPlaybackStream (params : CreatePlaybackStreamParams)
  | getSinkInfoList
  | getSourceInfoList
  | getClientInfoList
  | getCardInfoList
  | getModuleInfoList
  | getSinkInputInfoList
  | getSourceOutputInfoList
  | getSampleInfoList
  | registerMemfdShmid (shmid : Nat)
  /-- REPLY from a peer: the rest of the tagstruct is captured raw. -/
  | reply (params : List Nat)
  /-- ERROR envelope (only ever built by `Command::error_reply`, never
  parsed: the `PA_COMMAND_ERROR` match arm is commented out in the source
  and falls into the catch-all). -/
  | error (code : Nat)
  deriving DecidableEq, Repr

structure Command where
  tag : Nat
  kind : CommandKind
  deriving DecidableEq, Repr

/-- Result of `Command::from_tagstruct`. -/
inductive CmdRes
  | ok (c : Command)
  | err
  | panicked
  deriving DecidableEq, Repr

/-- The trailing check at the end of `Command::from_tagstruct`: any value
left in the tagstruct is an "extra command parameter" error (and a read
failure or panic propagates). -/
def finishCommand (tag : Nat) (kind : CommandKind) (rest : List Nat) : CmdRes :=
  match readOne rest with
  | .eof => .ok ⟨tag, kind⟩
  | .ok _ _ => .err
  | .err => .err
  | .panicked => .panicked

/-- `Command::from_tagstruct`.  The opcode enumeration `PaCommand` covers
0..=103 (`PA_COMMAND_ERROR = 0` through `PA_COMMAND_REGISTER_MEMFD_SHMID =
103` in declaration order); `from_u32` outside that range is an
"invalid command opcode" error.  The handled arms are REPLY (2),
CREATE_PLAYBACK_STREAM (3), AUTH (8), SET_CLIENT_NAME (9), the
GET_*_INFO_LIST opcodes (22, 24, 26, 28, 30, 32, 34) and
REGISTER_MEMFD_SHMID (103); every other opcode of the enumeration —
including ERROR, TIMEOUT, EXIT (7), SUBSCRIBE (35) and the singular
GET_*_INFO opcodes — reaches an `unimplemented!()` and panics. -/
def commandFromTagstruct (payload : List Nat) (protocolVersion : Nat) : CmdRes :=
  if protocolVersion < PROTOCOL_MIN_VERSION then .err
  else
    match readU32T payload with
    | .ok op r1 =>
      match readU32T r1 with
      | .ok tag r2 =>
        if 103 < op then .err
        else if op = 2 then finishCommand tag (.reply r2) []
        else if op = 3 then
          match createPlaybackStreamFromTagStruct protocolVersion r2 with
          | .ok params r3 => finishCommand tag (.createPlaybackStream params) r3
          | .err => .err
          | .panicked => .panicked
        else if op = 8 then
          match authFromTagStruct r2 with
          | .ok a r3 => finishCommand tag (.auth a) r3
          | .err => .err
          | .panicked => .panicked
        else if op = 9 then
          match readPropListT r2 with
          | .ok props r3 => finishCommand tag (.setClientName props) r3
          | .err => .err
          | .panicked => .panicked
        else if op = 22 then finishCommand tag .getSinkInfoList r2
        else if op = 24 then finishCommand tag .getSourceInfoList r2
        else if op = 26 then finishCommand tag .getModuleInfoList r2
        else if op = 28 then finishCommand tag .getClientInfoList r2
        else if op = 30 then finishCommand tag .getSinkInputInfoList r2
        else if op = 32 then finishCommand tag .getSourceOutputInfoList r2
        else if op = 34 then finishCommand tag .getSampleInfoList r2
        else if op = 103 then
          match readU32T r2 with
          | .ok shmid r3 => finishCommand tag (.registerMemfdShmid shmid) r3
          | .err => .err
          | .panicked => .panicked
        else .panicked   -- unimplemented!("command {:?}", command)
      | .err => .err
      | .panicked => .panicked
    | .err => .err
    | .panicked => .panicked

/-! ## Error codes (`pa-proto/src/error.rs`) -/
/-- `PulseError`, `#[repr(u32)]` starting at `Access = 1`. -/
inductive PulseError
  | access | command | invalid | exist | noEntity | connectionRefused
  | protocol | timeout | authKey | internal | connectionTerminated | killed
  | invalidServer | modInitFailed | badState | noData | version | tooLarge
  | notSupported | unknown | noExtension | obsolete | notImplemented
  | forked | io | busy
  deriving DecidableEq, Repr

/-- The numeric wire code of each `PulseError` (`as u32`). -/
def PulseError.toU32 : PulseError → Nat
  | .access => 1 | .command => 2 | .invalid => 3 | .exist => 4 | .noEntity => 5
  | .connectionRefused => 6 | .protocol => 7 | .timeout => 8 | .authKey => 9
  | .internal => 10 | .connectionTerminated => 11 | .killed => 12
  | .invalidServer => 13 | .modInitFailed => 14 | .badState => 15 | .noData => 16
  | .version => 17 | .tooLarge => 18 | .notSupported => 19 | .unknown => 20
  | .noExtension => 21 | .obsolete => 22 | .notImplemented => 23
  | .forked => 24 | .io => 25 | .busy => 26

/-! ## The per-client dispatcher (`src/server.rs`) -/
/-- The per-client record (`struct Client`): id, negotiated protocol
version (initially `PROTOCOL_MIN_VERSION`), authenticated flag (initially
false), property list. -/
structure Client where
  id : Nat
  protocolVersion : Nat
  authed : Bool
  props : PropList
  deriving DecidableEq, Repr

/-- `Command::needs_auth`: every command needs auth except `Auth` itself. -/
def Command.needsAuth (c : Command) : Bool :=
  match c.kind with
  | .auth _ => false
  | _ => true

/-- What a successful handler produces.  The serialized contents of the
catalog list replies (`GetSinkInfoListReply` etc.) are outside every claim
of this development, so they are represented by which reply was built. -/
inductive ReplyBody
  | authReply (serverVersion : Nat) (useMemfd useShm : Bool)
  | setClientNameReply (clientId : Nat)
  | sinkInfoList
  | clientInfoList
  | moduleInfoList
  deriving DecidableEq, Repr

/-- Outcome of `ClientHandler::handle_control`: `Ok(packet)` carrying a
reply body, `Err(PulseError)`, or a panic from one of the `unimplemented!()`
dispatch arms. -/
inductive CtrlRes
  | reply (b : ReplyBody)
  | errReply (e : PulseError)
  | panicked
  deriving DecidableEq, Repr

/-- `ClientHandler::handle_control`: authorization gate, then dispatch.
State updates (`with_client_mut`) are returned as the new `Client`. -/
def handleControl (serverCookie : List Nat) (st : Client) (cmd : Command) :
    Client × CtrlRes :=
  if cmd.needsAuth && !st.authed then (st, .errReply .access)
  else
    match cmd.kind with
    | .auth a =>
      if a.version < PROTOCOL_MIN_VERSION then (st, .errReply .version)
      else
        -- `self.with_client_mut(|c| c.protocol_version = protocol_version)`
        -- happens before the cookie comparison and before any reply.
        let st' := { st with protocolVersion := a.version }
        if a.cookie = serverCookie then
          ({ st' with authed := true },
            .reply (.authReply PROTOCOL_VERSION false false))
        else (st', .errReply .access)
    | .setClientName props =>
      ({ st with props := propsExtend st.props props },
        .reply (.setClientNameReply st.id))
    | .createPlaybackStream _ => (st, .errReply .notImplemented)  -- TODO in source
    | .getSinkInfoList => (st, .reply .sinkInfoList)
    | .getSourceInfoList => (st, .panicked)        -- unimplemented!()
    | .getClientInfoList => (st, .reply .clientInfoList)
    | .getCardInfoList => (st, .panicked)          -- unimplemented!()
    | .getModuleInfoList => (st, .reply .moduleInfoList)
    | .getSinkInputInfoList => (st, .panicked)     -- unimplemented!()
    | .getSourceOutputInfoList => (st, .panicked)  -- unimplemented!()
    | .getSampleInfoList => (st, .panicked)        -- unimplemented!()
    | .registerMemfdShmid _ => (st, .panicked)     -- unimplemented!()
    | .reply _ => (st, .errReply .protocol)
    | .error _ => (st, .errReply .protocol)

/-- Per-packet outcome as observed on the wire: a REPLY packet, an ERROR
packet (both echo the command tag), a wire-level error (the handler task
errors and the client is disconnected without a reply), or a panic. -/
inductive PacketOutcome
  | reply (tag : Nat) (body : ReplyBody)
  | errorPacket (tag : Nat) (code : PulseError)
  | wireError
  | panicked
  deriving DecidableEq, Repr

/-- `ClientHandler::handle_packet`: classify the frame, parse the command
at the client's current protocol version, dispatch, and turn a handler
`Err` into an ERROR packet carrying the command's tag
(`cmd.error_reply(e).to_packet(..)`).  A parse error propagates out of the
handler (`?`) and disconnects the client. -/
def handlePacket (serverCookie : List Nat) (st : Client) (packet : Packet) :
    Client × PacketOutcome :=
  match messageFromPacket packet with
  | .panicked => (st, .panicked)
  | .ok (.control payload) =>
    match commandFromTagstruct payload st.protocolVersion with
    | .err => (st, .wireError)
    | .panicked => (st, .panicked)
    | .ok cmd =>
      match handleControl serverCookie st cmd with
      | (st', .reply body) => (st', .reply cmd.tag body)
      | (st', .errReply e) => (st', .errorPacket cmd.tag e)
      | (st', .panicked) => (st', .panicked)

/-! ## The authentication cookie (`pa-proto/src/cookie.rs`)

The cookie file is modelled as its contents; the random generator as the
256 bytes it would produce.  `AuthCookie::load` is `unimplemented!()` in
the source, so `load_or_create` panics before its `or_else` can run; the
server (`Server::new_unix`) actually calls `AuthCookie::create`, which
removes any existing file and regenerates the cookie unconditionally. -/
inductive CookieFile
  | absent
  | present (bytes : List Nat)
  deriving DecidableEq, Repr

/-- `AuthCookie::load`: `unimplemented!()`. -/
def AuthCookie.load (_file : CookieFile) : POr (List Nat) := .panicked

/-- `AuthCookie::create`: remove any existing file, create it with mode
0600, fill it with the 256 random bytes, write them, return them.  (A
freshly created file carries the requested mode, so the permission check
passes; concurrent interference is out of scope.)  Returns the new file
state and the in-memory cookie. -/
def AuthCookie.create (_file : CookieFile) (rng : List Nat) : CookieFile × List Nat :=
  (.present rng, rng)

/-- `AuthCookie::load_or_create`: `load(..).or_else(|_| create(..))`.
Since `load` panics unconditionally, the `or_else` fallback is
unreachable. -/
def AuthCookie.loadOrCreate (file : CookieFile) (_rng : List Nat) :
    POr (CookieFile × List Nat) :=
  match AuthCookie.load file with
  | .ok data => .ok (file, data)
  | .panicked => .panicked

/-- The cookie acquisition performed by `Server::new_unix`:
`AuthCookie::create(cookie_path())?`. -/
def serverNewUnixCookie (file : CookieFile) (rng : List Nat) : CookieFile × List Nat :=
  AuthCookie.create file rng

/-- A `CreatePlaybackStream` payload assembled field by field in the exact
order `CreatePlaybackStream::from_tag_struct` reads them at protocol
version `p` (the version-gated blocks appear exactly when the parser reads
them; the v21 block carries a format-info count of zero). -/
def encodeCPSFields (p : Nat) (spec : SampleSpec) (chMap : List Nat) (sinkIndex : Nat)
    (sinkName : Option (List Nat)) (maxlength : Nat) (corked : Bool)
    (tlength prebuf minreq syncid : Nat) (cvol : List Nat)
    (b1 b2 b3 b4 b5 b6 b7 muted adjust : Bool) (props : PropList)
    (volumeSet early mutedSet dontInh failSusp relVol passth : Bool) : List Nat :=
  encodeValue (.sampleSpec spec) ++
  encodeValue (.channelMap chMap) ++
  encodeValue (.u32 sinkIndex) ++
  (match sinkName with
   | some n => encodeValue (.string n)
   | none => encodeValue .nullString) ++
  encodeValue (.u32 maxlength) ++
  encodeValue (.boolean corked) ++
  encodeValue (.u32 tlength) ++
  encodeValue (.u32 prebuf) ++
  encodeValue (.u32 minreq) ++
  encodeValue (.u32 syncid) ++
  encodeValue (.cvolume cvol) ++
  encodeValue (.boolean b1) ++
  encodeValue (.boolean b2) ++
  encodeValue (.boolean b3) ++
  encodeValue (.boolean b4) ++
  encodeValue (.boolean b5) ++
  encodeValue (.boolean b6) ++
  encodeValue (.boolean b7) ++
  encodeValue (.boolean muted) ++
  encodeValue (.boolean adjust) ++
  encodeValue (.propList props) ++
  (if 14 ≤ p then encodeValue (.boolean volumeSet) ++ encodeValue (.boolean early) else []) ++
  (if 15 ≤ p then
    encodeValue (.boolean mutedSet) ++ encodeValue (.boolean dontInh)
      ++ encodeValue (.boolean failSusp)
   else []) ++
  (if 17 ≤ p then encodeValue (.boolean relVol) else []) ++
  (if 18 ≤ p then encodeValue (.boolean passth) else []) ++
  (if 21 ≤ p then encodeValue (.u8 0) else [])

/-- The concrete counterexample payload for C8: a complete v13
`CREATE_PLAYBACK_STREAM` control payload (opcode 3, tag 1) whose sink index
is 0 (not the invalid index) and whose sink name is the non-null string
"s". -/
def cpsBothSinkPayload : List Nat :=
  encodeValue (.u32 3) ++ encodeValue (.u32 1) ++
  encodeCPSFields 13 ⟨.u8, 1, 44100⟩ [0] 0 (some [115]) 0 false 0 0 0 0 [65536]
    false false false false false false false false false []
    false false false false false false false

/-! ## Lemmas and claim theorems -/

theorem readU32_u32be (n : Nat) (h : n < 4294967296) (rest : List Nat) :
    readU32 (u32be n ++ rest) = some (n, rest) := by
  simp only [u32be, readU32, List.cons_append, List.nil_append,
    Option.some.injEq, Prod.mk.injEq]
  exact ⟨by omega, trivial⟩

theorem readU64_u64be (n : Nat) (h : n < 18446744073709551616) (rest : List Nat) :
    readU64 (u64be n ++ rest) = some (n, rest) := by
  simp only [u64be, readU64, List.cons_append, List.nil_append,
    Option.some.injEq, Prod.mk.injEq]
  exact ⟨by omega, trivial⟩

theorem toSigned64_toTwos64 (i : Int) (h1 : -9223372036854775808 ≤ i)
    (h2 : i < 9223372036854775808) : toSigned64 (toTwos64 i) = i := by
  unfold toSigned64 toTwos64
  omega

theorem toTwos64_lt (i : Int) : toTwos64 i < 18446744073709551616 := by
  unfold toTwos64
  omega

theorem splitAtNul_append (s : List Nat) (hs : ∀ b ∈ s, b ≠ 0) (rest : List Nat) :
    splitAtNul (s ++ 0 :: rest) = some (s, rest) := by
  induction s with
  | nil => simp [splitAtNul]
  | cons b t ih =>
    have hb : b ≠ 0 := hs b (List.mem_cons_self b t)
    have ht : ∀ x ∈ t, x ≠ 0 := fun x hx => hs x (List.mem_cons_of_mem b hx)
    simp [splitAtNul, hb, ih ht]

theorem readN_append (b rest : List Nat) (n : Nat) (h : b.length = n) :
    readN n (b ++ rest) = some (b, rest) := by
  subst h
  simp [readN, List.take_left, List.drop_left]

theorem SampleFormat.fromU8_toU8 (f : SampleFormat) : SampleFormat.fromU8 f.toU8 = some f := by
  cases f <;> rfl

theorem keyLtB_irrefl (k : List Nat) : keyLtB k k = false := by
  induction k with
  | nil => rfl
  | cons a t ih => simp [keyLtB, ih]

theorem keyLtB_asymm (a b : List Nat) (h : keyLtB a b = true) : keyLtB b a = false := by
  induction a generalizing b with
  | nil => cases b with
    | nil => simp [keyLtB] at h
    | cons x xs => simp [keyLtB]
  | cons x xs ih =>
    cases b with
    | nil => simp [keyLtB] at h
    | cons y ys =>
      by_cases hxy : x < y
      · simp [keyLtB, hxy, Nat.not_lt_of_lt hxy, Nat.ne_of_lt hxy]
      · by_cases hyx : y < x
        · simp [keyLtB, hxy, hyx] at h
        · have hxy' : x = y := Nat.le_antisymm (Nat.not_lt.mp hyx) (Nat.not_lt.mp hxy)
          subst hxy'
          simp only [keyLtB, if_neg (lt_irrefl x)] at h ⊢
          exact ih _ h

theorem keyLtB_trans (a b c : List Nat) (hab : keyLtB a b = true)
    (hbc : keyLtB b c = true) : keyLtB a c = true := by
  induction a generalizing b c with
  | nil => cases c with
    | nil =>
      cases b with
      | nil => simp [keyLtB] at hab
      | cons y ys => simp [keyLtB] at hbc
    | cons z zs => simp [keyLtB]
  | cons x xs ih =>
    cases b with
    | nil => simp [keyLtB] at hab
    | cons y ys =>
      cases c with
      | nil => simp [keyLtB] at hbc
      | cons z zs =>
        simp only [keyLtB] at hab hbc ⊢
        rcases Nat.lt_trichotomy x y with h1 | h1 | h1
        · rcases Nat.lt_trichotomy y z with h2 | h2 | h2
          · simp [Nat.lt_trans h1 h2]
          · subst h2; simp [h1]
          · simp [Nat.lt_asymm h2, h2] at hbc
        · subst h1
          rw [if_neg (lt_irrefl x), if_neg (lt_irrefl x)] at hab
          rcases Nat.lt_trichotomy x z with h2 | h2 | h2
          · simp [h2]
          · subst h2
            rw [if_neg (lt_irrefl x), if_neg (lt_irrefl x)] at hbc ⊢
            exact ih _ _ hab hbc
          · simp [Nat.lt_asymm h2, h2] at hbc
        · simp [Nat.lt_asymm h1, h1] at hab

theorem keyLtB_ne (a b : List Nat) (h : keyLtB a b = true) : a ≠ b := by
  intro he
  subst he
  simp [keyLtB_irrefl] at h

theorem mapInsert_append (k v : List Nat) (acc : PropList)
    (h : ∀ e ∈ acc, keyLtB e.1 k = true) :
    mapInsert k v acc = acc ++ [(k, v)] := by
  induction acc with
  | nil => rfl
  | cons e t ih =>
    have he : keyLtB e.1 k = true := h e (List.mem_cons_self e t)
    have hlt : keyLtB k e.1 = false := keyLtB_asymm _ _ he
    have hne : k ≠ e.1 := fun hk => keyLtB_ne e.1 k he hk.symm
    cases e with
    | mk k' v' =>
      simp only [mapInsert, hlt, if_false, Bool.false_eq_true, if_neg hne]
      rw [ih (fun x hx => h x (List.mem_cons_of_mem _ hx))]
      simp

theorem keysAscending_head (a : PropEntry) (t : PropList)
    (h : keysAscending (a :: t) = true) : ∀ e ∈ t, keyLtB a.1 e.1 = true := by
  induction t generalizing a with
  | nil => intro e he; cases he
  | cons b t' ih =>
    intro e he
    have h1 : keyLtB a.1 b.1 = true := by
      simp [keysAscending] at h
      exact h.1
    have h2 : keysAscending (b :: t') = true := by
      simp [keysAscending] at h
      exact h.2
    rcases List.mem_cons.mp he with rfl | he'
    · exact h1
    · exact keyLtB_trans _ _ _ h1 (ih b h2 e he')

theorem keysAscending_tail (a : PropEntry) (t : PropList)
    (h : keysAscending (a :: t) = true) : keysAscending t = true := by
  cases t with
  | nil => rfl
  | cons b t' =>
    simp [keysAscending] at h
    exact h.2

/-- Folding `BTreeMap::insert` over entries whose keys ascend strictly and
exceed every key already present reconstructs the concatenation: decoding a
`PropList` that was written from a `BTreeMap` traversal rebuilds the map. -/
theorem foldl_mapInsert_ascending (pl : PropList) (acc : PropList)
    (hasc : keysAscending pl = true)
    (hacc : ∀ e ∈ acc, ∀ p ∈ pl, keyLtB e.1 p.1 = true) :
    pl.foldl (fun m e => mapInsert e.1 e.2 m) acc = acc ++ pl := by
  induction pl generalizing acc with
  | nil => simp
  | cons p t ih =>
    simp only [List.foldl_cons]
    rw [mapInsert_append p.1 p.2 acc (fun e he => hacc e he p (List.mem_cons_self p t))]
    rw [ih (acc ++ [(p.1, p.2)]) (keysAscending_tail _ _ hasc) ?later]
    · simp
    case later =>
      intro e he q hq
      rcases List.mem_append.mp he with he' | he'
      · exact hacc e he' q (List.mem_cons_of_mem _ hq)
      · have : e = (p.1, p.2) := by simpa using he'
        subst this
        exact keysAscending_head p t hasc q hq

/-! ### Round-trip lemmas: the reader inverts the writers -/
theorem readPositions_encode (m : List Nat) (hm : m.all (· ≤ 50) = true)
    (rest : List Nat) : readPositions m.length (m ++ rest) = some (m, rest) := by
  induction m with
  | nil => rfl
  | cons p t ih =>
    have hp : p ≤ 50 := by
      have := (List.all_eq_true.mp hm) p (List.mem_cons_self p t)
      simpa using this
    have ht : t.all (· ≤ 50) = true := by
      rw [List.all_eq_true] at hm ⊢
      exact fun x hx => hm x (List.mem_cons_of_mem p hx)
    simp [readPositions, channelPositionFromU8, hp, ih ht]

theorem readVolumes_encode (vs : List Nat) (hv : vs.all (· ≤ VOLUME_MAX) = true)
    (rest : List Nat) : readVolumes vs.length (vs.flatMap u32be ++ rest) = some (vs, rest) := by
  induction vs with
  | nil => rfl
  | cons v t ih =>
    have hp : v ≤ VOLUME_MAX := by
      have := (List.all_eq_true.mp hv) v (List.mem_cons_self v t)
      simpa using this
    have ht : t.all (· ≤ VOLUME_MAX) = true := by
      rw [List.all_eq_true] at hv ⊢
      exact fun x hx => hv x (List.mem_cons_of_mem v hx)
    have hlt : v < 4294967296 := by
      have : VOLUME_MAX = 2147483647 := rfl
      omega
    simp only [List.length_cons, List.flatMap_cons, List.append_assoc, readVolumes,
      readU32_u32be v hlt, ih ht]
    simp [volumeFromU32Clamped, Nat.min_eq_left hp]

theorem readSampleSpecBody_encode (s : SampleSpec)
    (hs : validValue (.sampleSpec s) = true) (rest : List Nat) :
    readSampleSpecBody (s.format.toU8 :: s.channels :: (u32be s.sampleRate ++ rest))
      = some (s, rest) := by
  simp only [validValue, Bool.and_eq_true, decide_eq_true_eq] at hs
  have hrate : s.sampleRate < 4294967296 := by omega
  simp only [readSampleSpecBody, readU32_u32be s.sampleRate hrate,
    SampleFormat.fromU8_toU8, SampleSpec.newChecked, CHANNELS_MAX, RATE_MAX]
  rw [if_neg (by omega), if_neg (by omega)]

theorem readValue_encode_string (fuel : Nat) (s : List Nat)
    (hs : s.all (fun b => 0 < b && b < 256) = true) (rest : List Nat) :
    readValue (fuel + 1) (encodeValue (.string s) ++ rest) = .ok (.string s) rest := by
  have hnz : ∀ b ∈ s, b ≠ 0 := by
    intro b hb
    have := (List.all_eq_true.mp hs) b hb
    simp at this
    omega
  have : s ++ [0] ++ rest = s ++ 0 :: rest := by simp
  simp [readValue, encodeValue, tagSTRING, this, splitAtNul_append s hnz]

theorem readValue_encode_u32 (fuel : Nat) (n : Nat) (h : n < 4294967296)
    (rest : List Nat) :
    readValue (fuel + 1) (encodeValue (.u32 n) ++ rest) = .ok (.u32 n) rest := by
  simp [readValue, encodeValue, tagU32, tagSTRING, tagSTRING_NULL, readU32_u32be n h]

theorem readValue_encode_u8 (fuel : Nat) (n : Nat) (rest : List Nat) :
    readValue (fuel + 1) (encodeValue (.u8 n) ++ rest) = .ok (.u8 n) rest := by
  simp [readValue, encodeValue, tagU8, tagSTRING, tagSTRING_NULL, tagU32]

theorem readValue_encode_bool (fuel : Nat) (b : Bool) (rest : List Nat) :
    readValue (fuel + 1) (encodeValue (.boolean b) ++ rest) = .ok (.boolean b) rest := by
  cases b <;>
    simp [readValue, encodeValue, tagBOOLEAN_TRUE, tagBOOLEAN_FALSE, tagSTRING,
      tagSTRING_NULL, tagU32, tagU8, tagU64, tagS64, tagSAMPLE_SPEC, tagARBITRARY]

theorem readValue_encode_nullString (fuel : Nat) (rest : List Nat) :
    readValue (fuel + 1) (encodeValue .nullString ++ rest) = .ok .nullString rest := by
  simp [readValue, encodeValue, tagSTRING, tagSTRING_NULL]

theorem readValue_encode_arbitrary (fuel : Nat) (b : List Nat)
    (h : b.length < 4294967296) (rest : List Nat) :
    readValue (fuel + 1) (encodeValue (.arbitrary b) ++ rest) = .ok (.arbitrary b) rest := by
  have : (u32be b.length ++ b) ++ rest = u32be b.length ++ (b ++ rest) := by simp
  simp [readValue, encodeValue, tagARBITRARY, tagSTRING, tagSTRING_NULL, tagU32, tagU8,
    tagU64, tagS64, tagSAMPLE_SPEC, this, readU32_u32be b.length h,
    readN_append b rest b.length rfl]

theorem readValue_encode_u64 (fuel : Nat) (n : Nat) (h : n < 18446744073709551616)
    (rest : List Nat) :
    readValue (fuel + 1) (encodeValue (.u64 n) ++ rest) = .ok (.u64 n) rest := by
  simp [readValue, encodeValue, tagU64, tagSTRING, tagSTRING_NULL, tagU32, tagU8,
    readU64_u64be n h]

theorem readValue_encode_s64 (fuel : Nat) (i : Int)
    (h1 : -9223372036854775808 ≤ i) (h2 : i < 9223372036854775808) (rest : List Nat) :
    readValue (fuel + 1) (encodeValue (.s64 i) ++ rest) = .ok (.s64 i) rest := by
  simp [readValue, encodeValue, tagS64, tagSTRING, tagSTRING_NULL, tagU32, tagU8, tagU64,
    readU64_u64be (toTwos64 i) (toTwos64_lt i), toSigned64_toTwos64 i h1 h2]

theorem readValue_encode_usec (fuel : Nat) (n : Nat) (h : n < 18446744073709551616)
    (rest : List Nat) :
    readValue (fuel + 1) (encodeValue (.usec n) ++ rest) = .ok (.usec n) rest := by
  simp [readValue, encodeValue, tagUSEC, tagSTRING, tagSTRING_NULL, tagU32, tagU8, tagU64,
    tagS64, tagSAMPLE_SPEC, tagARBITRARY, tagBOOLEAN_TRUE, tagBOOLEAN_FALSE, tagPROPLIST,
    tagCHANNEL_MAP, tagCVOLUME, readU64_u64be n h]

theorem readValue_encode_volume (fuel : Nat) (v : Nat) (h : v ≤ VOLUME_MAX)
    (rest : List Nat) :
    readValue (fuel + 1) (encodeValue (.volume v) ++ rest) = .ok (.volume v) rest := by
  have hlt : v < 4294967296 := by
    have : VOLUME_MAX = 2147483647 := rfl
    omega
  simp [readValue, encodeValue, tagVOLUME, tagSTRING, tagSTRING_NULL, tagU32, tagU8, tagU64,
    tagS64, tagSAMPLE_SPEC, tagARBITRARY, tagBOOLEAN_TRUE, tagBOOLEAN_FALSE, tagPROPLIST,
    tagCHANNEL_MAP, tagCVOLUME, tagUSEC, readU32_u32be v hlt, volumeFromU32Clamped,
    Nat.min_eq_left h]

theorem readValue_encode_sampleSpec (fuel : Nat) (s : SampleSpec)
    (hs : validValue (.sampleSpec s) = true) (rest : List Nat) :
    readValue (fuel + 1) (encodeValue (.sampleSpec s) ++ rest) = .ok (.sampleSpec s) rest := by
  simp [readValue, encodeValue, tagSAMPLE_SPEC, tagSTRING, tagSTRING_NULL, tagU32, tagU8,
    tagU64, tagS64, readSampleSpecBody_encode s hs]

theorem readValue_encode_channelMap (fuel : Nat) (m : List Nat)
    (hm : validValue (.channelMap m) = true) (rest : List Nat) :
    readValue (fuel + 1) (encodeValue (.channelMap m) ++ rest) = .ok (.channelMap m) rest := by
  simp only [validValue, Bool.and_eq_true, decide_eq_true_eq] at hm
  simp [readValue, encodeValue, tagCHANNEL_MAP, tagSTRING, tagSTRING_NULL, tagU32, tagU8,
    tagU64, tagS64, tagSAMPLE_SPEC, tagARBITRARY, tagBOOLEAN_TRUE, tagBOOLEAN_FALSE,
    tagPROPLIST, CHANNELS_MAX, Nat.not_lt.mpr hm.1, readPositions_encode m hm.2]

theorem readValue_encode_cvolume (fuel : Nat) (vs : List Nat)
    (hv : validValue (.cvolume vs) = true) (rest : List Nat) :
    readValue (fuel + 1) (encodeValue (.cvolume vs) ++ rest) = .ok (.cvolume vs) rest := by
  simp only [validValue, Bool.and_eq_true, decide_eq_true_eq] at hv
  obtain ⟨⟨h1, h2⟩, h3⟩ := hv
  have hne : vs.length ≠ 0 := by omega
  simp [readValue, encodeValue, tagCVOLUME, tagSTRING, tagSTRING_NULL, tagU32, tagU8,
    tagU64, tagS64, tagSAMPLE_SPEC, tagARBITRARY, tagBOOLEAN_TRUE, tagBOOLEAN_FALSE,
    tagPROPLIST, tagCHANNEL_MAP, CHANNELS_MAX, hne, Nat.not_lt.mpr h2,
    readVolumes_encode vs h3]

theorem readPropEntries_encode (pl : PropList) :
    ∀ (fuel : Nat) (acc : PropList) (rest : List Nat),
    pl.all validPropEntry = true →
    (pl.flatMap encodePropEntry).length + 2 ≤ fuel →
    readPropEntries fuel (pl.flatMap encodePropEntry ++ tagSTRING_NULL :: rest) acc
      = .ok (.propList (pl.foldl (fun m e => mapInsert e.1 e.2 m) acc)) rest := by
  induction pl with
  | nil =>
    intro fuel acc rest _ hfuel
    obtain ⟨g, rfl⟩ : ∃ g, fuel = g + 2 := ⟨fuel - 2, by omega⟩
    simp only [List.flatMap_nil, List.nil_append, List.foldl_nil]
    show readPropEntries (g + 1 + 1) (tagSTRING_NULL :: rest) acc = _
    simp only [readPropEntries]
    rw [show (tagSTRING_NULL :: rest : List Nat) = encodeValue .nullString ++ rest from rfl,
      readValue_encode_nullString g rest]
  | cons e t ih =>
    intro fuel acc rest hvalid hfuel
    have hve : validPropEntry e = true := by
      rw [List.all_eq_true] at hvalid
      exact hvalid e (List.mem_cons_self e t)
    have hvt : t.all validPropEntry = true := by
      rw [List.all_eq_true] at hvalid ⊢
      exact fun x hx => hvalid x (List.mem_cons_of_mem e hx)
    simp only [validPropEntry, Bool.and_eq_true, decide_eq_true_eq] at hve
    obtain ⟨⟨⟨hkne, hkbytes⟩, hvbytes⟩, hvlen⟩ := hve
    have hk256 : e.1.all (fun b => 0 < b && b < 256) = true := by
      rw [List.all_eq_true] at hkbytes ⊢
      intro x hx
      have := hkbytes x hx
      simp only [Bool.and_eq_true, decide_eq_true_eq] at this ⊢
      omega
    have hk128 : e.1.all (fun b => b < 128) = true := by
      rw [List.all_eq_true] at hkbytes ⊢
      intro x hx
      have := hkbytes x hx
      simp only [Bool.and_eq_true, decide_eq_true_eq] at this ⊢
      omega
    have hvlen32 : e.2.length < 4294967296 := by
      have : MAX_PROP_SIZE = 65536 := rfl
      omega
    have hentry : (encodePropEntry e).length = e.1.length + e.2.length + 12 := by
      simp [encodePropEntry, u32be]
      omega
    obtain ⟨g, rfl⟩ : ∃ g, fuel = g + 2 := by
      refine ⟨fuel - 2, ?_⟩
      simp only [List.flatMap_cons, List.length_append, hentry] at hfuel ⊢
      omega
    show readPropEntries (g + 1 + 1) _ acc = _
    simp only [readPropEntries, List.flatMap_cons]
    have hin : ((encodePropEntry e ++ t.flatMap encodePropEntry) ++ tagSTRING_NULL :: rest)
        = encodeValue (.string e.1) ++ ((tagU32 :: u32be e.2.length)
          ++ ((tagARBITRARY :: (u32be e.2.length ++ e.2))
            ++ (t.flatMap encodePropEntry ++ tagSTRING_NULL :: rest))) := by
      simp [encodePropEntry, encodeValue]
    rw [hin, readValue_encode_string g e.1 hk256]
    simp only [hkne, hk128, not_true_eq_false, Bool.false_eq_true, if_false, ite_false,
      if_neg (by simp [hkne] : ¬ e.1 = [])]
    rw [show ((tagU32 :: u32be e.2.length)
        ++ ((tagARBITRARY :: (u32be e.2.length ++ e.2))
          ++ (t.flatMap encodePropEntry ++ tagSTRING_NULL :: rest)))
      = encodeValue (.u32 e.2.length) ++ ((tagARBITRARY :: (u32be e.2.length ++ e.2))
          ++ (t.flatMap encodePropEntry ++ tagSTRING_NULL :: rest)) from rfl,
      readValue_encode_u32 g e.2.length hvlen32]
    simp only [if_neg (by omega : ¬ e.2.length > MAX_PROP_SIZE)]
    rw [show ((tagARBITRARY :: (u32be e.2.length ++ e.2))
          ++ (t.flatMap encodePropEntry ++ tagSTRING_NULL :: rest))
      = encodeValue (.arbitrary e.2) ++ (t.flatMap encodePropEntry ++ tagSTRING_NULL :: rest)
        from rfl,
      readValue_encode_arbitrary g e.2 hvlen32]
    simp only [ne_eq, not_true_eq_false, if_neg (by simp : ¬ e.2.length ≠ e.2.length)]
    have hrec := ih (g + 1) (mapInsert e.1 e.2 acc) rest hvt (by
      simp only [List.flatMap_cons, List.length_append, hentry] at hfuel
      omega)
    simp only [readPropEntries] at hrec
    rw [hrec]
    simp

theorem encodeValue_length_pos (v : Value) : 1 ≤ (encodeValue v).length := by
  cases v with
  | boolean b => cases b <;> simp [encodeValue]
  | string s => simp [encodeValue]
  | nullString => simp [encodeValue]
  | u32 n => simp [encodeValue]
  | u8 n => simp [encodeValue]
  | u64 n => simp [encodeValue]
  | s64 i => simp [encodeValue]
  | sampleSpec s => simp [encodeValue]
  | arbitrary b => simp [encodeValue]
  | usec n => simp [encodeValue]
  | channelMap m => simp [encodeValue]
  | cvolume vs => simp [encodeValue]
  | propList pl => simp [encodeValue, encodePropList]
  | volume n => simp [encodeValue]
  | formatInfo fi => simp [encodeValue, encodePropList]

theorem readValue_encode_propList (fuel : Nat) (pl : PropList)
    (hv : validPropList pl = true) (rest : List Nat)
    (hfuel : (pl.flatMap encodePropEntry).length + 2 ≤ fuel) :
    readValue (fuel + 1) (encodeValue (.propList pl) ++ rest) = .ok (.propList pl) rest := by
  simp only [validPropList, Bool.and_eq_true] at hv
  have hin : encodeValue (.propList pl) ++ rest
      = tagPROPLIST :: (pl.flatMap encodePropEntry ++ tagSTRING_NULL :: rest) := by
    simp [encodeValue, encodePropList]
  rw [hin]
  simp only [readValue, tagPROPLIST, tagSTRING, tagSTRING_NULL, tagU32, tagU8, tagU64,
    tagS64, tagSAMPLE_SPEC, tagARBITRARY, tagBOOLEAN_TRUE, tagBOOLEAN_FALSE]
  norm_num
  show readPropEntries fuel (pl.flatMap encodePropEntry ++ tagSTRING_NULL :: rest) [] = _
  rw [readPropEntries_encode pl fuel [] rest hv.1 hfuel,
    foldl_mapInsert_ascending pl [] hv.2 (by intro e he p hp; cases he)]
  simp

theorem readValue_encode_formatInfo (fuel : Nat) (fi : FormatInfo)
    (hv : validValue (.formatInfo fi) = true) (rest : List Nat)
    (hfuel : (encodeValue (.formatInfo fi)).length + 1 ≤ fuel + 1) :
    readValue (fuel + 1) (encodeValue (.formatInfo fi) ++ rest)
      = .ok (.formatInfo fi) rest := by
  simp only [validValue, Bool.and_eq_true, decide_eq_true_eq] at hv
  have hlen : (encodeValue (.formatInfo fi)).length
      = (fi.props.flatMap encodePropEntry).length + 5 := by
    simp [encodeValue, encodePropList]
  obtain ⟨g, rfl⟩ : ∃ g, fuel = g + 1 := ⟨fuel - 1, by omega⟩
  have hin : encodeValue (.formatInfo fi) ++ rest
      = tagFORMAT_INFO :: (encodeValue (.u8 fi.encoding)
          ++ (encodeValue (.propList fi.props) ++ rest)) := by
    simp [encodeValue, encodePropList]
  rw [hin]
  simp only [readValue, tagFORMAT_INFO, tagSTRING, tagSTRING_NULL, tagU32, tagU8, tagU64,
    tagS64, tagSAMPLE_SPEC, tagARBITRARY, tagBOOLEAN_TRUE, tagBOOLEAN_FALSE, tagPROPLIST,
    tagCHANNEL_MAP, tagCVOLUME, tagUSEC, tagVOLUME]
  norm_num
  rw [readValue_encode_propList g fi.props hv.2 rest (by omega)]
  simp [FormatInfo.fromRaw, hv.1]

/-- Round trip of the tagstruct codec: reading the wire encoding of any
valid value yields that value back and leaves the rest of the stream
untouched, for any sufficient fuel. -/
theorem readValue_encode (v : Value) (hv : validValue v = true) (rest : List Nat)
    (fuel : Nat) (hfuel : (encodeValue v).length + 1 ≤ fuel) :
    readValue fuel (encodeValue v ++ rest) = .ok v rest := by
  obtain ⟨g, rfl⟩ : ∃ g, fuel = g + 1 := by
    refine ⟨fuel - 1, ?_⟩
    have := encodeValue_length_pos v
    omega
  cases v with
  | string s => exact readValue_encode_string g s (by simpa [validValue] using hv) rest
  | nullString => exact readValue_encode_nullString g rest
  | u32 n => exact readValue_encode_u32 g n (by simpa [validValue] using hv) rest
  | u8 n => exact readValue_encode_u8 g n rest
  | u64 n => exact readValue_encode_u64 g n (by simpa [validValue] using hv) rest
  | s64 i =>
    have h := hv
    simp only [validValue, Bool.and_eq_true, decide_eq_true_eq] at h
    exact readValue_encode_s64 g i h.1 h.2 rest
  | sampleSpec s => exact readValue_encode_sampleSpec g s hv rest
  | arbitrary b =>
    have h := hv
    simp only [validValue, Bool.and_eq_true, decide_eq_true_eq] at h
    exact readValue_encode_arbitrary g b h.2 rest
  | boolean b => exact readValue_encode_bool g b rest
  | usec n => exact readValue_encode_usec g n (by simpa [validValue] using hv) rest
  | channelMap m => exact readValue_encode_channelMap g m hv rest
  | cvolume vs => exact readValue_encode_cvolume g vs hv rest
  | propList pl =>
    refine readValue_encode_propList g pl (by simpa [validValue] using hv) rest ?_
    have : (encodeValue (.propList pl)).length
        = (pl.flatMap encodePropEntry).length + 2 := by
      simp [encodeValue, encodePropList]
    omega
  | volume n => exact readValue_encode_volume g n (by simpa [validValue] using hv) rest
  | formatInfo fi => exact readValue_encode_formatInfo g fi hv rest hfuel

/-- Round trip at the standard entry point. -/
theorem readOne_encode (v : Value) (hv : validValue v = true) (rest : List Nat) :
    readOne (encodeValue v ++ rest) = .ok v rest := by
  unfold readOne
  refine readValue_encode v hv rest _ ?_
  simp

/-! ## Typed-read round trips (used to drive command parses over built
payloads) -/
theorem expectTyped_encode {α : Type} (f : Value → Option α) (v : Value)
    (hv : validValue v = true) (rest : List Nat) :
    expectTyped f (encodeValue v ++ rest)
      = match f v with
        | some a => PRes.ok a rest
        | none => PRes.err := by
  rw [expectTyped, readOne_encode v hv rest]

theorem readU32T_encode (n : Nat) (h : n < 4294967296) (rest : List Nat) :
    readU32T (encodeValue (.u32 n) ++ rest) = .ok n rest := by
  rw [readU32T, expectTyped_encode _ _ (by simpa [validValue]) rest]

theorem readU8T_encode (n : Nat) (h : n < 256) (rest : List Nat) :
    readU8T (encodeValue (.u8 n) ++ rest) = .ok n rest := by
  rw [readU8T, expectTyped_encode _ _ (by simpa [validValue]) rest]

theorem readBoolT_encode (b : Bool) (rest : List Nat) :
    readBoolT (encodeValue (.boolean b) ++ rest) = .ok b rest := by
  rw [readBoolT, expectTyped_encode _ _ (by simp [validValue]) rest]

theorem readArbitraryT_encode (b : List Nat) (hv : validValue (.arbitrary b) = true)
    (rest : List Nat) :
    readArbitraryT (encodeValue (.arbitrary b) ++ rest) = .ok b rest := by
  rw [readArbitraryT, expectTyped_encode _ _ hv rest]

theorem readPropListT_encode (pl : PropList) (hv : validPropList pl = true)
    (rest : List Nat) :
    readPropListT (encodeValue (.propList pl) ++ rest) = .ok pl rest := by
  rw [readPropListT, expectTyped_encode _ _ (by simpa [validValue]) rest]

theorem readSampleSpecT_encode (s : SampleSpec) (hv : validValue (.sampleSpec s) = true)
    (rest : List Nat) :
    readSampleSpecT (encodeValue (.sampleSpec s) ++ rest) = .ok s rest := by
  rw [readSampleSpecT, expectTyped_encode _ _ hv rest]

theorem readChannelMapT_encode (m : List Nat) (hv : validValue (.channelMap m) = true)
    (rest : List Nat) :
    readChannelMapT (encodeValue (.channelMap m) ++ rest) = .ok m rest := by
  rw [readChannelMapT, expectTyped_encode _ _ hv rest]

theorem readCVolumeT_encode (vs : List Nat) (hv : validValue (.cvolume vs) = true)
    (rest : List Nat) :
    readCVolumeT (encodeValue (.cvolume vs) ++ rest) = .ok vs rest := by
  rw [readCVolumeT, expectTyped_encode _ _ hv rest]

theorem readStringOrNullT_encode_some (s : List Nat)
    (hv : validValue (.string s) = true) (rest : List Nat) :
    readStringOrNullT (encodeValue (.string s) ++ rest) = .ok (some s) rest := by
  rw [readStringOrNullT, expectTyped_encode _ _ hv rest]

theorem readStringOrNullT_encode_none (rest : List Nat) :
    readStringOrNullT (encodeValue .nullString ++ rest) = .ok none rest := by
  rw [readStringOrNullT, expectTyped_encode _ _ (by simp [validValue]) rest]

theorem readU8T_encode_zero_end : readU8T (encodeValue (.u8 0)) = .ok 0 [] := by decide

theorem readBoolT_encode_end (b : Bool) : readBoolT (encodeValue (.boolean b)) = .ok b [] := by
  have h := readBoolT_encode b []
  simpa using h

theorem readPropListT_encode_end (pl : PropList) (hv : validPropList pl = true) :
    readPropListT (encodeValue (.propList pl)) = .ok pl [] := by
  have h := readPropListT_encode pl hv []
  simpa using h

set_option maxHeartbeats 2000000 in
/-- C8 (amended): a `CreatePlaybackStream` payload whose sink index is not
0xFFFFFFFF and whose sink name is a non-null string is rejected by
`CreatePlaybackStream::from_tag_struct` as a wire-level protocol error (no
command value is constructed), at every protocol version ≥ 13 and for
arbitrary well-formed field contents. -/
theorem createPlaybackStream_rejects_index_and_name (p : Nat) (hp : 13 ≤ p)
    (spec : SampleSpec) (hspec : validValue (.sampleSpec spec) = true)
    (chMap : List Nat) (hch : validValue (.channelMap chMap) = true)
    (sinkIndex : Nat) (hidx32 : sinkIndex < 4294967296) (hidx : sinkIndex ≠ INVALID_INDEX)
    (name : List Nat) (hname : validValue (.string name) = true)
    (maxlength tlength prebuf minreq syncid : Nat)
    (hml : maxlength < 4294967296) (htl : tlength < 4294967296)
    (hpb : prebuf < 4294967296) (hmr : minreq < 4294967296) (hsy : syncid < 4294967296)
    (cvol : List Nat) (hcv : validValue (.cvolume cvol) = true)
    (props : PropList) (hprops : validPropList props = true)
    (corked b1 b2 b3 b4 b5 b6 b7 muted adjust : Bool)
    (volumeSet early mutedSet dontInh failSusp relVol passth : Bool) :
    createPlaybackStreamFromTagStruct p
      (encodeCPSFields p spec chMap sinkIndex (some name) maxlength corked
        tlength prebuf minreq syncid cvol b1 b2 b3 b4 b5 b6 b7 muted adjust props
        volumeSet early mutedSet dontInh failSusp relVol passth) = .err := by
  unfold encodeCPSFields createPlaybackStreamFromTagStruct
  by_cases h14 : 14 ≤ p <;> by_cases h15 : 15 ≤ p <;> by_cases h17 : 17 ≤ p <;>
    by_cases h18 : 18 ≤ p <;> by_cases h21 : 21 ≤ p <;>
    first
      | omega
      | simp [h14, h15, h17, h18, h21, List.append_assoc, pbind,
          readSampleSpecT_encode spec hspec, readChannelMapT_encode chMap hch,
          readU32T_encode _ hidx32, readU32T_encode _ hml, readU32T_encode _ htl,
          readU32T_encode _ hpb, readU32T_encode _ hmr, readU32T_encode _ hsy,
          readStringOrNullT_encode_some name hname, readBoolT_encode,
          readCVolumeT_encode cvol hcv, readPropListT_encode props hprops,
          readU8T_encode 0 (by omega), readU8T_encode_zero_end, readBoolT_encode_end,
          readPropListT_encode_end props hprops, readFormatInfos,
          sinkSpecSelect, hidx]

theorem SampleFormat.fromU8_none (f : Nat) (h : 12 < f) : SampleFormat.fromU8 f = none := by
  obtain ⟨g, rfl⟩ : ∃ g, f = g + 13 := ⟨f - 13, by omega⟩
  rfl

/-! ## Claim theorems -/
/-- C1: evaluating the frame codec at the failing input.  The spec claims
`decode_frames(concat(encode_frame(b1), encode_frame(b2))) == [b1, b2]` and
split-invariance; the decoder's `src.clear()` discards the second frame
when both arrive in one chunk, so the concatenation delivered as one chunk
yields only `[b1]`, while the same bytes delivered frame-by-frame yield
`[b1, b2]`.  (The single-frame round trip holds.) -/
theorem packetCodec_discards_pipelined_frames :
    decodeFrames [encodeFrame [1] ++ encodeFrame [2]] = [[1]]
    ∧ decodeFrames [encodeFrame [1], encodeFrame [2]] = [[1], [2]]
    ∧ decodeFrames [encodeFrame [1]] = [[1]] := by
  decide

/-- C2: evaluating the server at a control packet whose opcode is in the
enumeration but outside the handled set.  An authenticated client sends
EXIT (opcode 7, tag 99): `Command::from_tagstruct` hits
`unimplemented!("command ..")` and panics (no ERROR reply, the connection
dies).  GET_SOURCE_INFO_LIST (opcode 24) parses but the dispatch arm is
`unimplemented!()`, likewise a panic.  Moreover the code's
`NotImplemented` wire code is 23, not the 22 the claim states. -/
theorem unhandled_opcode_panics :
    handlePacket [] ⟨0, 13, true, []⟩
      (Packet.newCommand (encodeValue (.u32 7) ++ encodeValue (.u32 99)))
      = (⟨0, 13, true, []⟩, .panicked)
    ∧ handlePacket [] ⟨0, 13, true, []⟩
      (Packet.newCommand (encodeValue (.u32 24) ++ encodeValue (.u32 99)))
      = (⟨0, 13, true, []⟩, .panicked)
    ∧ PulseError.notImplemented.toU32 = 23 := by
  decide

/-- C3: a well-formed command other than Auth from an unauthenticated
client is answered with ERROR(Access) and the command handler is not
executed (the client record is unchanged); only Auth is exempt from the
check (`Command::needs_auth`). -/
theorem unauthenticated_command_rejected_with_access (cookie : List Nat) (st : Client)
    (cmd : Command) (hk : ∀ a, cmd.kind ≠ CommandKind.auth a) (ha : st.authed = false) :
    handleControl cookie st cmd = (st, .errReply .access)
    ∧ cmd.needsAuth = true
    ∧ ∀ (t : Nat) (a : AuthCmd), Command.needsAuth ⟨t, .auth a⟩ = false := by
  have hn : cmd.needsAuth = true := by
    unfold Command.needsAuth
    cases hck : cmd.kind <;> first
      | rfl
      | exact absurd hck (hk _)
  refine ⟨?_, hn, fun t a => rfl⟩
  unfold handleControl
  rw [hn, ha]
  simp

/-- C3 witness: a `GetSinkInfoList` from a fresh (unauthenticated) client
is rejected with Access and the record is unchanged. -/
theorem unauthenticated_command_rejected_with_access_witness :
    handleControl [] ⟨0, 13, false, []⟩ ⟨5, .getSinkInfoList⟩
      = (⟨0, 13, false, []⟩, .errReply .access) :=
  (unauthenticated_command_rejected_with_access [] ⟨0, 13, false, []⟩ ⟨5, .getSinkInfoList⟩
    (fun a => by simp) rfl).1

/-- C4: evaluating `Message::from_packet` / `ClientHandler::handle_packet`
at non-control frames.  A memblock frame (channel 3, flags 0), a
shm-release frame (flags 0x40000000) and a shm-revoke frame (flags
0xC0000000) all hit an `unimplemented!()` and panic; the connection
handler does not keep running. -/
theorem non_control_frame_panics :
    messageFromPacket ⟨⟨2, 3, 0, 0, 0⟩, [9, 9]⟩ = .panicked
    ∧ messageFromPacket ⟨⟨0, 0, 0, 0, FLAG_SHMRELEASE⟩, []⟩ = .panicked
    ∧ messageFromPacket ⟨⟨0, 0, 0, 0, FLAG_SHMREVOKE⟩, []⟩ = .panicked
    ∧ handlePacket [] ⟨0, 13, false, []⟩ ⟨⟨0, 0, 0, 0, 0⟩, []⟩
      = (⟨0, 13, false, []⟩, .panicked) := by
  decide

/-- C5 counterexample: the codec never applies `protocol_downgrade` — a
24-bit sample spec round-trips *unchanged* (here at protocol 13, where the
claim asserts it comes back as 32-bit float of the same endianness). -/
theorem sampleSpec_s24_roundtrips_unchanged :
    readOne (encodeValue (.sampleSpec ⟨.s24le, 1, 44100⟩))
      = .ok (.sampleSpec ⟨.s24le, 1, 44100⟩) []
    ∧ (⟨.s24le, 1, 44100⟩ : SampleSpec) ≠ ⟨.float32le, 1, 44100⟩ := by
  decide

/-- C5 (amended): for every protocol version p in 13..=32 and every valid
value variant, decoding the encoding returns the value unchanged — with no
exception for 24-bit sample formats, because neither the writers nor the
reader consult the protocol version (`protocol_downgrade` is a separate
transform applied explicitly by repliers, not by the codec). -/
theorem tagstruct_roundtrip (p : Nat) (_hp1 : 13 ≤ p) (_hp2 : p ≤ 32)
    (v : Value) (hv : validValue v = true) :
    readOne (encodeValue v) = .ok v [] := by
  have h := readOne_encode v hv []
  simpa using h

/-- C5 witness: the round trip evaluated at p = 13 on a format-info value
carrying a property list. -/
theorem tagstruct_roundtrip_witness :
    readOne (encodeValue (.formatInfo ⟨2, [([97], [98, 0])]⟩))
      = .ok (.formatInfo ⟨2, [([97], [98, 0])]⟩) [] :=
  tagstruct_roundtrip 13 (by decide) (by decide) _ (by decide)

/-- C6: `SampleSpec::protocol_downgrade` maps the 24-bit formats to 32-bit
float of the same endianness when the version is below 15, is the identity
at version ≥ 15, and never changes the channel count or sample rate. -/
theorem protocolDowngrade_spec (s : SampleSpec) (v : Nat) :
    ((s.protocolDowngrade v).channels = s.channels
      ∧ (s.protocolDowngrade v).sampleRate = s.sampleRate)
    ∧ (v < 15 → (s.protocolDowngrade v).format =
        (match s.format with
          | .s24le => .float32le
          | .s24in32le => .float32le
          | .s24be => .float32be
          | .s24in32be => .float32be
          | f => f))
    ∧ (15 ≤ v → s.protocolDowngrade v = s) := by
  unfold SampleSpec.protocolDowngrade
  by_cases hv : v < 15
  · rw [if_pos hv]
    refine ⟨?_, fun _ => ?_, fun h => absurd h (by omega)⟩
    · cases s with
      | mk f c r => cases f <;> simp
    · cases s with
      | mk f c r => cases f <;> simp
  · rw [if_neg hv]
    exact ⟨⟨rfl, rfl⟩, fun h => absurd h hv, fun _ => rfl⟩

/-- C6 witness: the downgrade evaluated at an S24LE spec, below and at
version 15. -/
theorem protocolDowngrade_spec_witness :
    (SampleSpec.protocolDowngrade ⟨.s24le, 2, 48000⟩ 13).format = .float32le
    ∧ SampleSpec.protocolDowngrade ⟨.s24le, 2, 48000⟩ 15 = ⟨.s24le, 2, 48000⟩ :=
  ⟨(protocolDowngrade_spec ⟨.s24le, 2, 48000⟩ 13).2.1 (by decide),
   (protocolDowngrade_spec ⟨.s24le, 2, 48000⟩ 15).2.2 (by decide)⟩

/-- C7: every successfully parsed sample spec satisfies channels ∈ [1, 32]
and rate ∈ [1, 387840] (= ⌊48000·8·1.01⌋); and any wire image whose format
byte is outside the enum range or whose channel count or rate is out of
bounds is rejected (`SampleFormat::from_u8` / `SampleSpec::new_checked`
return errors, no `SampleSpec` is constructed). -/
theorem sampleSpec_parse_bounds :
    (∀ (input : List Nat) (s : SampleSpec) (rest : List Nat),
      readSampleSpecBody input = some (s, rest) →
      1 ≤ s.channels ∧ s.channels ≤ 32 ∧ 1 ≤ s.sampleRate ∧ s.sampleRate ≤ 387840)
    ∧ (∀ (f ch r : Nat) (rest : List Nat), r < 4294967296 →
      (12 < f ∨ ch = 0 ∨ 32 < ch ∨ r = 0 ∨ 387840 < r) →
      readSampleSpecBody (f :: ch :: (u32be r ++ rest)) = none) := by
  constructor
  · intro input s rest h
    match input with
    | [] => simp [readSampleSpecBody] at h
    | [f] => simp [readSampleSpecBody] at h
    | f :: ch :: rest' =>
      simp only [readSampleSpecBody] at h
      split at h
      case _ rate rest'' hru =>
        split at h
        case _ fmt hfu =>
          split at h
          case _ spec hnc =>
            simp only [Option.some.injEq, Prod.mk.injEq] at h
            obtain ⟨rfl, rfl⟩ := h
            unfold SampleSpec.newChecked at hnc
            split_ifs at hnc with g1 g2
            simp only [Option.some.injEq] at hnc
            subst hnc
            simp only [CHANNELS_MAX, RATE_MAX, not_or] at g1 g2
            exact ⟨(by omega : 1 ≤ ch), (by omega : ch ≤ 32),
              (by omega : 1 ≤ rate), (by omega : rate ≤ 387840)⟩
          case _ => exact absurd h (by simp)
        case _ => exact absurd h (by simp)
      case _ => exact absurd h (by simp)
  · intro f ch r rest hr32 hbad
    simp only [readSampleSpecBody, readU32_u32be r hr32]
    rcases hbad with hf | hbad'
    · rw [SampleFormat.fromU8_none f hf]
    · cases hfu : SampleFormat.fromU8 f with
      | none => rfl
      | some fmt =>
        simp only [SampleSpec.newChecked, CHANNELS_MAX, RATE_MAX]
        split_ifs with g1 g2
        · rfl
        · rfl
        · exfalso
          simp only [not_or] at g1 g2
          rcases hbad' with h | h | h | h <;> omega

/-- C7 witness: a concrete in-range parse (format 0, 2 channels, rate
44100) satisfies the bounds, and a format byte of 13 is rejected. -/
theorem sampleSpec_parse_bounds_witness :
    (1 ≤ (⟨.u8, 2, 44100⟩ : SampleSpec).channels
      ∧ (⟨.u8, 2, 44100⟩ : SampleSpec).channels ≤ 32
      ∧ 1 ≤ (⟨.u8, 2, 44100⟩ : SampleSpec).sampleRate
      ∧ (⟨.u8, 2, 44100⟩ : SampleSpec).sampleRate ≤ 387840)
    ∧ readSampleSpecBody (13 :: 1 :: (u32be 44100 ++ [])) = none :=
  ⟨sampleSpec_parse_bounds.1 (0 :: 2 :: (u32be 44100 ++ [])) ⟨.u8, 2, 44100⟩ []
      (by decide),
   sampleSpec_parse_bounds.2 13 1 44100 [] (by decide) (by decide)⟩

/-- C8 counterexample: a complete v13 CreatePlaybackStream control packet
with sink index 0 and sink name "s", from an authenticated client.  The
claim asserts an ERROR reply carrying code Invalid; the code instead fails
the parse (`Command::from_tagstruct` propagates the wire error), so the
handler yields a wire error — the connection is closed and no ERROR packet
is sent at all. -/
theorem cps_index_and_name_closes_connection :
    handlePacket [] ⟨0, 13, true, []⟩ (Packet.newCommand cpsBothSinkPayload)
      = (⟨0, 13, true, []⟩, .wireError) := by
  decide

/-- C8-amended witness: the general rejection theorem applied at protocol
13 with concrete fields (sink index 0, sink name "s"). -/
theorem createPlaybackStream_rejects_index_and_name_witness :
    createPlaybackStreamFromTagStruct 13
      (encodeCPSFields 13 ⟨.u8, 1, 44100⟩ [0] 0 (some [115]) 0 false 0 0 0 0 [65536]
        false false false false false false false false false []
        false false false false false false false) = .err :=
  createPlaybackStream_rejects_index_and_name 13 (by decide) ⟨.u8, 1, 44100⟩ (by decide)
    [0] (by decide) 0 (by decide) (by decide) [115] (by decide) 0 0 0 0 0
    (by decide) (by decide) (by decide) (by decide) (by decide) [65536] (by decide)
    [] (by decide) false false false false false false false false false
    false false false false false false false false

/-- C9: an Auth command with requested version ≥ 13 whose cookie does not
byte-equal the server cookie yields ERROR(Access); the client's
protocol_version is nevertheless set to the requested version before the
reply is produced, the authenticated flag stays false, and no other client
field changes. -/
theorem auth_cookie_mismatch_updates_version (cookie : List Nat) (st : Client)
    (a : AuthCmd) (tag : Nat) (hver : 13 ≤ a.version) (hck : a.cookie ≠ cookie)
    (hau : st.authed = false) :
    handleControl cookie st ⟨tag, .auth a⟩
      = ({ st with protocolVersion := a.version }, .errReply .access)
    ∧ ({ st with protocolVersion := a.version }).authed = false
    ∧ ({ st with protocolVersion := a.version }).id = st.id
    ∧ ({ st with protocolVersion := a.version }).props = st.props := by
  refine ⟨?_, hau, rfl, rfl⟩
  unfold handleControl Command.needsAuth
  simp only [Bool.false_and, Bool.false_eq_true, if_neg (by simp : ¬ False)]
  rw [show PROTOCOL_MIN_VERSION = 13 from rfl, if_neg (by omega : ¬ a.version < 13),
    if_neg hck]

/-- C9 witness: version 20, wrong cookie — the record keeps
authed = false and id/props, but carries protocol_version 20, and the
reply is ERROR(Access). -/
theorem auth_cookie_mismatch_updates_version_witness :
    handleControl [1] ⟨0, 13, false, []⟩ ⟨9, .auth ⟨20, false, false, [2]⟩⟩
      = (⟨0, 20, false, []⟩, .errReply .access) :=
  (auth_cookie_mismatch_updates_version [1] ⟨0, 13, false, []⟩ ⟨20, false, false, [2]⟩ 9
    (by decide) (by decide) rfl).1

/-- C10: evaluating the cookie code when a cookie file already exists.
`AuthCookie::load_or_create` panics unconditionally (its `load` is
`unimplemented!()`), and the server's actual startup path
(`Server::new_unix` → `AuthCookie::create`) deletes the existing file and
regenerates the cookie, so the cookie does *not* persist across restarts. -/
theorem cookie_always_regenerated :
    AuthCookie.loadOrCreate (.present (List.replicate 256 7)) (List.replicate 256 9)
      = .panicked
    ∧ serverNewUnixCookie (.present (List.replicate 256 7)) (List.replicate 256 9)
      = (.present (List.replicate 256 9), List.replicate 256 9)
    ∧ List.replicate 256 9 ≠ List.replicate 256 7 := by
  refine ⟨rfl, rfl, ?_⟩
  decide

end Pulsar

